import Mathlib

/-
Verification development for the claims-adjudication core of the
backend-content repository.

Embedding conventions:
 * JavaScript numbers are modelled as rationals, dates as integers
   (milliseconds since the epoch), fraud penalties and scores as integers
   (every penalty in the source is an integer literal).
 * Mongoose documents are modelled as Lean structures holding exactly the
   schema paths the claims touch; property reads that address a path the
   schema does not define evaluate to undefined in JavaScript, and are
   modelled as constant none readers (each such reader carries a comment
   naming the source line it translates).
 * Methods that save state are modelled as pure state transformers;
   thrown exceptions are modelled with Except.
-/

namespace ContentClaims

/-- Claim status values of the statusHistory sub-schema (Claim model, part_008
lines 88-100). -/
inductive Status where
  | Submitted
  | UnderReview
  | AIReviewed
  | ManualReview
  | Approved
  | Rejected
  | Paid
  | Reinstated

deriving DecidableEq

/-- Incident types of the claimDetails sub-schema (part_008 lines 13-17). -/
inductive IncidentType where
  | FullSuspension
  | LimitedAds
  | VideoDemonetization

deriving DecidableEq

/-- Appeal status values of the claimDetails sub-schema (part_008 lines 20-24). -/
inductive AppealStatus where
  | NotStarted
  | InProgress
  | Rejected

deriving DecidableEq

/-- Covered-reason categories of the evaluation sub-schema (part_008 line 62). -/
inductive CoveredReason where
  | AD_SUITS
  | POLICY_UPDATE
  | TEMP_SUSPEND
  | GLITCH
  | COPYRIGHT
  | OTHER_NOT_COVERED

deriving DecidableEq

/-- One entry of analytics.youtube.metrics.earningsHistory: a day's date
(milliseconds) and revenue amount. -/
structure EarningsEntry where
  date : Int
  amount : ℚ

deriving DecidableEq

/-- The analytics fields read by the claim model: the earnings time series and
the 90-day average used as a baseline fallback. -/
structure Analytics where
  earningsHistory : List EarningsEntry
  avgDailyRevenue90d : ℚ

deriving DecidableEq

/-- A video of the user's channel (only publishedAt is read by scanFraud). -/
structure Video where
  publishedAt : Int

deriving DecidableEq

/-- One entry of the user's claimHistory.claims array (User schema): the
status recorded by the controller and the payout amount. -/
structure UserClaimEntry where
  status : Status
  payoutAmount : ℚ

deriving DecidableEq

/-- The User-document fields read or written by the claims core:
personalInfo.fullName, financialInfo.paymentMethod.details.mobileNumber, the
videos array stored under platformInfo.youtube.channel, the
insuranceStatus.fraudScore standing field, and claimHistory.claims. -/
structure User where
  fullName : String
  mobileNumber : String
  videos : List Video
  fraudScore : ℚ
  claimHistory : List UserClaimEntry

deriving DecidableEq

/-- The channel publishedAt read in scanFraud (part_008 line 231): the User
schema defines platformInfo.youtube.channel with title, description, counts,
uploadPlaylistId and videos, but no publishedAt path, so the property access
yields undefined, modelled as none.  The source immediately falls back with
Date.now() on this value. -/
def User.channelPublishedAt (_ : User) : Option Int := none

/-- The claimDetails sub-document fields used by the core (part_008 lines
10-25). -/
structure ClaimDetails where
  userId : Nat
  incidentType : IncidentType
  incidentDate : Int
  appealStatus : AppealStatus

deriving DecidableEq

/-- The evaluation.aiAnalysis sub-document (part_008 lines 68-73). -/
structure AiAnalysis where
  isValid : Option Bool
  confidenceScore : Option ℤ
  fraudScore : ℤ
  reasons : List String

deriving DecidableEq

/-- The evaluation sub-document fields used by the core (part_008 lines
54-85).  Fields without a schema default are Options (undefined until
written). -/
structure Evaluation where
  revenueDropPercent : Option ℚ
  lostDays : ℚ
  baselineDaily : Option ℚ
  coveredReason : CoveredReason
  strikes : ℚ
  doubleDipCheck : Bool
  aiAnalysis : AiAnalysis
  manualReviewIsValid : Option Bool
  payoutAmount : Option ℚ
  verifiedEarningsLoss : Option ℚ
  repayAmount : ℚ
  reinstated : Bool

deriving DecidableEq

/-- One entry of statusHistory.history (part_008 lines 88-99); the date and
updatedBy fields are not inspected by any claim and are omitted. -/
structure HistoryEntry where
  status : Status
  notes : String
  inAppMessage : String

deriving DecidableEq

/-- A Claim document: claimDetails, evaluation and the statusHistory.history
array, plus the document id used by the duplicate-check query. -/
structure Claim where
  id : Nat
  claimDetails : ClaimDetails
  evaluation : Evaluation
  statusHistory : List HistoryEntry

deriving DecidableEq

/-- The top-level incidentType read in scanFraud (part_008 line 225): the
claim schema stores the incident type at claimDetails.incidentType and
defines no top-level incidentType path, so the property access yields
undefined, modelled as none. -/
def Claim.topIncidentType (_ : Claim) : Option IncidentType := none

/-- The top-level reinstated flag read in handleReinstatement (part_008 line
347): the claim schema stores the flag at evaluation.reinstated and defines
no top-level reinstated path, so the read yields undefined, modelled as
none. -/
def Claim.topReinstated (_ : Claim) : Option Bool := none

/-- The top-level incidentDate addressed by the duplicate-check query filter
(part_008 line 281): the claim schema stores the date at
claimDetails.incidentDate and defines no top-level incidentDate path, so
every stored document is missing this field. -/
def Claim.topIncidentDate (_ : Claim) : Option Int := none

/-- Evaluation sub-document defaults on claim creation (part_008 lines
54-85). -/
def defaultEvaluation : Evaluation :=
  { revenueDropPercent := none
    lostDays := 0
    baselineDaily := none
    coveredReason := CoveredReason.OTHER_NOT_COVERED
    strikes := 0
    doubleDipCheck := false
    aiAnalysis :=
      { isValid := none, confidenceScore := none, fraudScore := 0, reasons := [] }
    manualReviewIsValid := none
    payoutAmount := none
    verifiedEarningsLoss := none
    repayAmount := 0
    reinstated := false }

/-- A freshly created claim: statusHistory defaults to a single Submitted
entry (part_008 lines 108-111). -/
def newClaim (id userId : Nat) (incidentType : IncidentType) (incidentDate : Int)
    (appealStatus : AppealStatus) : Claim :=
  { id := id
    claimDetails :=
      { userId := userId, incidentType := incidentType,
        incidentDate := incidentDate, appealStatus := appealStatus }
    evaluation := defaultEvaluation
    statusHistory := [{ status := Status.Submitted, notes := "", inAppMessage := "" }] }

/-- Milliseconds per day, as the literal 24*60*60*1000 used throughout the
source. -/
def MS_PER_DAY : Int := 86400000

/-- Milliseconds per month, as the literal 1000*60*60*24*30 used for channel
age in scanFraud. -/
def MS_PER_MONTH : ℚ := 2592000000

/-- JavaScript fallback x || d on an optional numeric value: undefined and 0
are falsy. -/
def jsOr (x : Option ℚ) (d : ℚ) : ℚ :=
  match x with
  | none => d
  | some v => if v = 0 then d else v

/-- JavaScript comparison x < y where x may be undefined: comparisons against
NaN are false. -/
def jsLt (x : Option ℚ) (y : ℚ) : Bool :=
  match x with
  | none => false
  | some v => decide (v < y)

/-- JavaScript comparison x >= y where x may be undefined: comparisons
against NaN are false. -/
def jsGe (x : Option ℚ) (y : ℚ) : Bool :=
  match x with
  | none => false
  | some v => decide (y ≤ v)

/-- JavaScript !x on an optional boolean: !undefined is true. -/
def jsFalsy (x : Option Bool) : Bool :=
  match x with
  | none => true
  | some b => !b

/-- Math.round: round half toward positive infinity. -/
def jsRound (x : ℚ) : ℤ := ⌊x + 1/2⌋

/-- MongoDB range filter field gte value on a possibly missing field: a
comparison against a missing field matches no document. -/
def mongoGte (x : Option Int) (d : Int) : Bool :=
  match x with
  | none => false
  | some v => decide (d ≤ v)

/-- Array.prototype.slice with a negative index: the last n elements. -/
def lastN {α : Type} (n : Nat) (l : List α) : List α := l.drop (l.length - n)

/-- The reduce((sum, h) => sum + h.amount, 0) accumulation used for
averages. -/
def sumAmounts (l : List EarningsEntry) : ℚ := l.foldl (fun s h => s + h.amount) 0

/-- Claim.methods.updateStatus (part_008 lines 136-146): push an entry onto
statusHistory.history. -/
def updateStatus (c : Claim) (newStatus : Status) (notes message : String) : Claim :=
  { c with statusHistory :=
      c.statusHistory ++ [{ status := newStatus, notes := notes, inAppMessage := message }] }

/-- The current status of a claim, read everywhere in the controllers as the
last element of statusHistory.history. -/
def lastStatus (c : Claim) : Option Status :=
  (c.statusHistory.getLast?).map (fun e => e.status)

/-- The object returned by autoPullData (part_008 line 171): note it returns
the raw qualifying-day count, while the stored evaluation.lostDays is
floored. -/
structure AutoPullRes where
  drop : ℚ
  lostDays : Nat
  baselineAvg : ℚ

deriving DecidableEq

/-- Claim.methods.autoPullData (part_008 lines 149-172).  Throws when the
user has no Analytics document; otherwise computes the 7-day pre-incident
baseline (falling back to the 90-day average when no pre-incident entry
exists), the post-incident average over up to 10 entries, the drop percent,
and the count of post-incident days below 30 percent of baseline; stores the
drop, the baseline, the count floored at 3, and strikes := 0 (stub). -/
def autoPullData (analytics : Option Analytics) (c : Claim) :
    Except String (Claim × AutoPullRes) :=
  match analytics with
  | none => Except.error "No analytics data"
  | some a =>
    let incidentDate := c.claimDetails.incidentDate
    let history := lastN 7 (a.earningsHistory.filter (fun h => decide (h.date < incidentDate)))
    let baselineAvg :=
      if 0 < history.length then sumAmounts history / (history.length : ℚ)
      else a.avgDailyRevenue90d
    let postHistory := (a.earningsHistory.filter (fun h => decide (incidentDate ≤ h.date))).take 10
    let recentAvg :=
      if 0 < postHistory.length then sumAmounts postHistory / (postHistory.length : ℚ) else 0
    let drop := if 0 < baselineAvg then max 0 ((baselineAvg - recentAvg) / baselineAvg * 100) else 0
    let lostDays := (postHistory.filter (fun h => decide (h.amount < baselineAvg * (3/10)))).length
    Except.ok
      ({ c with evaluation :=
          { c.evaluation with
              revenueDropPercent := some drop
              baselineDaily := some baselineAvg
              lostDays := max 3 (lostDays : ℚ)
              strikes := 0 } },
       { drop := drop, lostDays := lostDays, baselineAvg := baselineAvg })

/-- Claim.methods.calculatePayout (part_008 lines 175-185): 70 percent of the
baseline per lost day, capped at the premium's monthlyCap (65000 when the
premium or its cap is missing or zero). -/
def calculatePayout (cap : Option ℚ) (c : Claim) : Claim × ℚ :=
  let baseline := jsOr c.evaluation.baselineDaily 0
  let payoutDaily := baseline * (7/10)
  let monthlyCap := jsOr cap 65000
  let total := min (payoutDaily * c.evaluation.lostDays) monthlyCap
  ({ c with evaluation :=
      { c.evaluation with payoutAmount := some total, verifiedEarningsLoss := some total } },
   total)

/-- The covered set of reasons (part_008 line 189). -/
def coveredReasons : List CoveredReason :=
  [CoveredReason.AD_SUITS, CoveredReason.POLICY_UPDATE,
   CoveredReason.TEMP_SUSPEND, CoveredReason.GLITCH]

/-- Claim.methods.enforceCoverage (part_008 lines 188-197). -/
def enforceCoverage (c : Claim) : String :=
  if coveredReasons.contains c.evaluation.coveredReason
      && jsGe c.evaluation.revenueDropPercent 70
      && decide (3 ≤ c.evaluation.lostDays)
      && decide (c.evaluation.strikes < 3)
  then "approve" else "reject"

/-- The revenue-spike comparison preAvg greater than baselineDaily * 2
(part_008 line 213) where baselineDaily may be undefined (comparisons against
NaN are false). -/
def jsGtDouble (x : ℚ) (b : Option ℚ) : Bool :=
  match b with
  | none => false
  | some bv => decide (bv * 2 < x)

/-- Claim.methods.scanFraud (part_008 lines 200-249): starts at 100,
subtracts the triggered weighted penalties, floors at 0, and records the
triggered flags as name:value strings.  Returns the updated claim and the
score. -/
def scanFraud (now : Int) (user : User) (analytics : Option Analytics) (c : Claim) :
    Claim × ℤ :=
  let incident := c.claimDetails.incidentDate
  let preHistory :=
    match analytics with
    | none => []
    | some a => a.earningsHistory.filter
        (fun h => decide (h.date < incident) && decide (incident - 2 * MS_PER_DAY < h.date))
  let preAvg : ℚ :=
    if 0 < preHistory.length then sumAmounts preHistory / (preHistory.length : ℚ) else 0
  let spike : ℤ := if jsGtDouble preAvg c.evaluation.baselineDaily then 20 else 0
  let massUpload : ℤ :=
    match user.videos with
    | [] => 0
    | v0 :: _ =>
      if decide (5 < user.videos.length)
          && (lastN 5 user.videos).all
              (fun v => decide ((v.publishedAt - v0.publishedAt).natAbs < 86400000))
      then 15 else 0
  let ipBlock : ℤ := 0
  let copyrightMismatch : ℤ :=
    if decide (c.evaluation.coveredReason = CoveredReason.COPYRIGHT)
        && decide (Claim.topIncidentType c ≠ some IncidentType.VideoDemonetization)
    then 25 else 0
  let appealRejected : ℤ :=
    if c.claimDetails.appealStatus = AppealStatus.Rejected then 10 else 0
  let publishedAt : Int := (User.channelPublishedAt user).getD now
  let channelAge : ℚ := ((now - publishedAt : Int) : ℚ) / MS_PER_MONTH
  let newChannel : ℤ := if channelAge < 6 then 10 else 0
  let nameMismatch : ℤ := if user.fullName ≠ user.mobileNumber then 5 else 0
  let flags : List (String × ℤ) :=
    [("revenueSpike", spike), ("massUpload", massUpload), ("ipBlock", ipBlock),
     ("copyrightMismatch", copyrightMismatch), ("appealRejected", appealRejected),
     ("newChannel", newChannel), ("nameMismatch", nameMismatch)]
  let totalPenalty : ℤ := (flags.map Prod.snd).sum
  let score : ℤ := max 0 (100 - totalPenalty)
  let reasons :=
    (flags.filter (fun f => decide (0 < f.snd))).map
      (fun f => f.fst ++ ":" ++ toString f.snd)
  ({ c with evaluation :=
      { c.evaluation with aiAnalysis :=
          { fraudScore := score
            isValid := some (decide (75 < score))
            confidenceScore := some 90
            reasons := reasons } } },
   score)

/-- Claim.methods.processPayout (part_008 lines 322-343): appends a Paid
status entry and pushes a Paid entry with the payout amount onto the user's
claimHistory.claims (payoutDate and the mock transaction id are not inspected
by any claim and are omitted). -/
def processPayout (amount : ℚ) (c : Claim) (u : User) : Claim × User :=
  let c1 := updateStatus c Status.Paid "" ""
  (c1, { u with claimHistory :=
      u.claimHistory ++ [{ status := Status.Paid, payoutAmount := amount }] })

/-- The incidentType to coveredReason table of verifyClaim step 2 (part_008
lines 262-266). -/
def typeMap : IncidentType → CoveredReason
  | IncidentType.FullSuspension => CoveredReason.TEMP_SUSPEND
  | IncidentType.LimitedAds => CoveredReason.AD_SUITS
  | IncidentType.VideoDemonetization => CoveredReason.POLICY_UPDATE

/-- String form of a covered reason, used in the coverage rejection
message. -/
def covString : CoveredReason → String
  | CoveredReason.AD_SUITS => "AD_SUITS"
  | CoveredReason.POLICY_UPDATE => "POLICY_UPDATE"
  | CoveredReason.TEMP_SUSPEND => "TEMP_SUSPEND"
  | CoveredReason.GLITCH => "GLITCH"
  | CoveredReason.COPYRIGHT => "COPYRIGHT"
  | CoveredReason.OTHER_NOT_COVERED => "OTHER_NOT_COVERED"

/-- The duplicate-check query filter of verifyClaim step 4 (part_008 lines
279-284): same user, incidentDate in the trailing 30-day window (addressed at
the top level, a path no claim document has, so this conjunct never holds),
some history entry Approved or Paid, and a different document id. -/
def matchesDoubleDipQuery (thirtyDaysAgo : Int) (me : Claim) (c : Claim) : Bool :=
  decide (c.claimDetails.userId = me.claimDetails.userId)
    && mongoGte (Claim.topIncidentDate c) thirtyDaysAgo
    && c.statusHistory.any
        (fun h => decide (h.status = Status.Approved) || decide (h.status = Status.Paid))
    && decide (c.id ≠ me.id)

/-- The result object returned by verifyClaim; fields absent from a given
return statement are none. -/
structure VResult where
  status : Status
  reason : Option String
  payout : Option ℚ
  fraudScore : Option ℤ
  needsManual : Option Bool

deriving DecidableEq

/-- The state after a verifyClaim call: the persisted claim and user
documents and the returned result.  A thrown exception is Except.error; the
claim field still carries every status entry saved before the throw, since
updateStatus saves immediately. -/
structure VerifyState where
  claim : Claim
  user : User
  result : Except String VResult

/-- Claim.methods.verifyClaim (part_008 lines 252-319): auto-pull, qualifying
loss gate, coverage mapping and check, duplicate check, then fraud scoring,
payout calculation and the fraud-score branch.  In the score-below-50 branch
the source, after appending the Rejected entry, dereferences the identifier
user which is not bound anywhere in the method (the fetched user exists only
inside scanFraud), so the decrement line throws a ReferenceError. -/
def verifyClaim (now : Int) (db : List Claim) (analytics : Option Analytics)
    (cap : Option ℚ) (user : User) (c : Claim) : VerifyState :=
  match autoPullData analytics c with
  | Except.error e => { claim := c, user := user, result := Except.error e }
  | Except.ok (c1, _) =>
    if jsLt c1.evaluation.revenueDropPercent 70 || decide (c1.evaluation.lostDays < 3) then
      let message := "Not covered: No qualifying income loss (≥70% for 3+ days)."
      { claim := updateStatus c1 Status.Rejected message message
        user := user
        result := Except.ok
          { status := Status.Rejected, reason := some message,
            payout := none, fraudScore := none, needsManual := none } }
    else
      let c2 := { c1 with evaluation :=
          { c1.evaluation with coveredReason := typeMap c1.claimDetails.incidentType } }
      if enforceCoverage c2 = "reject" then
        let message := "Not covered: " ++ covString c2.evaluation.coveredReason ++ " detected."
        { claim := updateStatus c2 Status.Rejected message message
          user := user
          result := Except.ok
            { status := Status.Rejected, reason := some message,
              payout := none, fraudScore := none, needsManual := none } }
      else
        let thirtyDaysAgo := now - 30 * MS_PER_DAY
        let recentClaims := db.filter (matchesDoubleDipQuery thirtyDaysAgo c2)
        let isDuplicate := recentClaims.any (fun rc =>
          decide ((rc.claimDetails.incidentDate - c2.claimDetails.incidentDate).natAbs
            < 86400000))
        let c3 := { c2 with evaluation := { c2.evaluation with doubleDipCheck := isDuplicate } }
        if isDuplicate then
          let message := "Not covered: Duplicate claim for same event."
          { claim := updateStatus c3 Status.Rejected message message
            user := user
            result := Except.ok
              { status := Status.Rejected, reason := some message,
                payout := none, fraudScore := none, needsManual := none } }
        else
          let sc := scanFraud now user analytics c3
          let fraudScore := sc.2
          let cp := calculatePayout cap sc.1
          let c5 := cp.1
          let payout := cp.2
          if 75 < fraudScore then
            let approveMessage :=
              "Claim approved! KSh " ++ toString (jsRound payout) ++ " hits your M-Pesa in 7 days."
            let c6 := updateStatus c5 Status.Approved "" approveMessage
            let pp := processPayout payout c6 user
            { claim := pp.1
              user := pp.2
              result := Except.ok
                { status := Status.Paid, reason := none, payout := some payout,
                  fraudScore := some fraudScore, needsManual := none } }
          else if 50 ≤ fraudScore then
            let c6 := updateStatus c5 Status.ManualReview "" "Big drop detected. Verifying in 24h."
            { claim := c6
              user := user
              result := Except.ok
                { status := Status.UnderReview, reason := none, payout := none,
                  fraudScore := some fraudScore, needsManual := some true } }
          else
            let rejectMessage := "Not covered: High fraud risk detected."
            let c6 := updateStatus c5 Status.Rejected rejectMessage rejectMessage
            { claim := c6
              user := user
              result := Except.error "ReferenceError: user is not defined" }

/-- Claim.methods.handleReinstatement (part_008 lines 346-363).  The guard
reads the top-level reinstated path (not evaluation.reinstated where the flag
is stored), so its first conjunct is the truthiness of undefined, which
always passes; the repayment is half the payout, a Reinstated entry is
appended, and the user's fraud standing drops by 10, floored at 50. -/
def handleReinstatement (u : User) (c : Claim) : Except String (Claim × User × ℚ) :=
  if jsFalsy (Claim.topReinstated c)
      && c.statusHistory.any (fun h => decide (h.status = Status.Paid)) then
    let repayAmount := (c.evaluation.payoutAmount.getD 0) * (1/2)
    let message :=
      "Reinstated! Repay KSh " ++ toString (jsRound repayAmount) ++
        " within 30 days to avoid blacklist."
    let c1 := { c with evaluation :=
        { c.evaluation with reinstated := true, repayAmount := repayAmount } }
    let c2 := updateStatus c1 Status.Reinstated "Appeal successful" message
    let u1 := { u with fraudScore := max 50 (u.fraudScore - 10) }
    Except.ok (c2, u1, repayAmount)
  else
    Except.error "Not eligible for reinstatement or already handled"

/-- ClaimsController.reinstateClaim (lines 537-572): requires the claim's
current (last) status to be Paid, then delegates to handleReinstatement. -/
def reinstateClaim (u : User) (c : Claim) : Except String (Claim × User × ℚ) :=
  if lastStatus c ≠ some Status.Paid then
    Except.error "Claim must be paid before reinstatement"
  else handleReinstatement u c

/-- One review of AdminClaimsController.bulkReviewClaims (part_007 lines
77-136): requires current status Under Review or Manual Review; on a valid
review it calculates the payout, runs processPayout (which appends Paid), and
only then appends the Approved entry; on an invalid review it appends
Rejected. -/
def bulkReviewStep (cap : Option ℚ) (isValid : Bool) (notes : String)
    (u : User) (c : Claim) : Except String (Claim × User × ℚ) :=
  if !(decide (lastStatus c = some Status.UnderReview)
        || decide (lastStatus c = some Status.ManualReview)) then
    Except.error "Claim not eligible for manual review"
  else
    let c1 := { c with evaluation := { c.evaluation with manualReviewIsValid := some isValid } }
    if isValid then
      let cp := calculatePayout cap c1
      let pp := processPayout cp.2 cp.1 u
      let inAppMessage :=
        "Approved after review! KSh " ++ toString (jsRound cp.2) ++ " incoming."
      let c3 := updateStatus pp.1 Status.Approved notes inAppMessage
      Except.ok (c3, pp.2, cp.2)
    else
      let c2 := updateStatus c1 Status.Rejected notes "Rejected after review."
      Except.ok (c2, u, 0)

/-- ClaimsController.reviewClaimManual (lines 394-446): records the manual
verdict, appends the Approved or Rejected entry and, on approval, runs
processPayout afterwards (so Approved precedes Paid on this path). -/
def reviewClaimManual (cap : Option ℚ) (isValid : Bool) (notes : String)
    (u : User) (c : Claim) : Claim × User × ℚ :=
  let c1 := { c with evaluation := { c.evaluation with manualReviewIsValid := some isValid } }
  let cp := if isValid then calculatePayout cap c1 else (c1, 0)
  let newStatus := if isValid then Status.Approved else Status.Rejected
  let message :=
    if isValid then "Approved after review! KSh " ++ toString (jsRound cp.2) ++ " incoming."
    else "Rejected after review."
  let c2 := updateStatus cp.1 newStatus notes message
  if isValid then
    let pp := processPayout cp.2 c2 u
    (pp.1, pp.2, cp.2)
  else (c2, u, 0)

/-- The status enum string recorded in history entries and results. -/
def statusText : Status → String
  | Status.Submitted => "Submitted"
  | Status.UnderReview => "Under Review"
  | Status.AIReviewed => "AI Reviewed"
  | Status.ManualReview => "Manual Review"
  | Status.Approved => "Approved"
  | Status.Rejected => "Rejected"
  | Status.Paid => "Paid"
  | Status.Reinstated => "Reinstated"

/-- The post-verification bookkeeping of ClaimsController.submitClaim (lines
134-152): pushes an entry with the status and payout returned by verifyClaim
onto the user's claimHistory.claims, and builds the confirmation email
subject from that returned status. -/
def submitClaimRecord (u : User) (r : VResult) : User × String :=
  ({ u with claimHistory :=
      u.claimHistory ++ [{ status := r.status, payoutAmount := jsOr r.payout 0 }] },
   "Claim " ++ statusText r.status ++ " - CCI")

/-- The User fields read by the premium methods: financialInfo.monthlyEarnings
and insuranceStatus.fraudScore. -/
structure PremiumUser where
  monthlyEarnings : ℚ
  fraudScore : ℚ

deriving DecidableEq

/-- The premiumDetails fields read and written by the premium methods
(Premium model, src/Servers/Models/Premium.js lines 10-47). -/
structure PremiumDetails where
  basePercentage : ℚ
  discountPercentage : ℚ
  discountReason : String
  preventiveServiceDiscount : ℚ
  finalPercentage : ℚ
  finalAmount : ℚ

deriving DecidableEq

/-- Premium.methods.checkContentReviewDiscount (Premium.js lines 139-158):
the mock fraud rate grants a 10 percent discount when the user's standing is
above 90; the resulting percentage is clamped to the 2-5 range and the amount
to the 1000-5000 range. -/
def checkContentReviewDiscount (u : PremiumUser) (p : PremiumDetails) : PremiumDetails :=
  let fraudRate : ℚ := if 90 < u.fraudScore then 1/2 else 3/2
  let discountPct : ℚ := if fraudRate < 1 then 10 else 0
  let p1 :=
    if fraudRate < 1 then
      { p with discountPercentage := 10,
               discountReason := "Low fraud + preventive AI discount",
               preventiveServiceDiscount := 5 }
    else p
  let adjustedPercentage := max (min (p.basePercentage - discountPct / 100) 5) 2
  { p1 with
      finalPercentage := adjustedPercentage
      finalAmount := max (min (adjustedPercentage / 100 * u.monthlyEarnings) 5000) 1000 }

/-- Premium.methods.recalculatePremium (Premium.js lines 236-253): reruns the
discount check, then recomputes the clamped amount from the (already clamped)
final percentage. -/
def recalculatePremium (u : PremiumUser) (p : PremiumDetails) : PremiumDetails :=
  let p1 := checkContentReviewDiscount u p
  { p1 with
      finalAmount := max (min (p1.finalPercentage / 100 * u.monthlyEarnings) 5000) 1000 }

/-- Premium.methods.adjustPremium (Premium.js lines 256-276): applies the
admin percentage delta multiplicatively to the amount, clamps it, then
derives and clamps the percentage (keeping the old percentage when earnings
are zero).  The adjustment-history append carries no bound-relevant state and
is omitted. -/
def adjustPremium (adjustmentPercentage : ℚ) (u : PremiumUser) (p : PremiumDetails) :
    PremiumDetails :=
  let newFinalAmount := max (min (p.finalAmount * (1 + adjustmentPercentage / 100)) 5000) 1000
  let newFinalPercentage :=
    max (min (if 0 < u.monthlyEarnings then newFinalAmount / u.monthlyEarnings * 100
              else p.finalPercentage) 5) 2
  { p with finalAmount := newFinalAmount, finalPercentage := newFinalPercentage }

/-- The premium created by Premium.statics.estimatePremium and
createFromApplication (Premium.js lines 161-233): base 2 percent, amount
clamped from 2 percent of earnings. -/
def estimatePremiumNew (u : PremiumUser) : PremiumDetails :=
  { basePercentage := 2
    discountPercentage := 0
    discountReason := ""
    preventiveServiceDiscount := 0
    finalPercentage := 2
    finalAmount := max (min (2 / 100 * u.monthlyEarnings) 5000) 1000 }

/-- The legal ranges of the stored final percentage and amount. -/
def premiumInRange (p : PremiumDetails) : Prop :=
  2 ≤ p.finalPercentage ∧ p.finalPercentage ≤ 5
    ∧ 1000 ≤ p.finalAmount ∧ p.finalAmount ≤ 5000

/-- Scenario M incident date: day 100 in milliseconds. -/
def tM : Int := 100 * 86400000

/-- Scenario M analytics: seven pre-incident days (700 daily, with a 4200
spike the day before the incident) and five post-incident days at 60. -/
def aM : Analytics :=
  { earningsHistory :=
      [⟨93 * 86400000, 700⟩, ⟨94 * 86400000, 700⟩, ⟨95 * 86400000, 700⟩,
       ⟨96 * 86400000, 700⟩, ⟨97 * 86400000, 700⟩, ⟨98 * 86400000, 700⟩,
       ⟨99 * 86400000, 4200⟩,
       ⟨100 * 86400000, 60⟩, ⟨101 * 86400000, 60⟩, ⟨102 * 86400000, 60⟩,
       ⟨103 * 86400000, 60⟩, ⟨104 * 86400000, 60⟩]
    avgDailyRevenue90d := 0 }

/-- Scenario M evaluation time: day 105. -/
def nowM : Int := 105 * 86400000

/-- Scenario M user: registered name equal to the payout identity, no
videos. -/
def uM : User :=
  { fullName := "Alice Wanjiku", mobileNumber := "Alice Wanjiku",
    videos := [], fraudScore := 80, claimHistory := [] }

/-- Scenario M claim: a full-suspension incident on day 100, appeal not
started. -/
def cM : Claim := newClaim 1 7 IncidentType.FullSuspension tM AppealStatus.NotStarted

/-- Scenario M evaluation state after autoPullData: baseline 1200 (8400/7),
drop 95 percent, five qualifying lost days. -/
def evalM1 : Evaluation :=
  { defaultEvaluation with
      revenueDropPercent := some 95
      baselineDaily := some 1200
      lostDays := 5 }

deriving instance DecidableEq for Except

deriving instance DecidableEq for VerifyState

/-- The result verifyClaim returns in scenario M: the string status Under
Review with the manual flag, while the appended history entry says Manual
Review. -/
def rM : VResult :=
  { status := Status.UnderReview, reason := none, payout := none,
    fraudScore := some 70, needsManual := some true }

/-- A concrete claim for the C4 witness: baseline 1000, five lost days. -/
def cFour : Claim :=
  { newClaim 4 11 IncidentType.FullSuspension 0 AppealStatus.NotStarted with
      evaluation := { defaultEvaluation with baselineDaily := some 1000, lostDays := 5 } }

/-- The evaluation state of the scenario M claim after the full verifyClaim
run: mapped covered reason, fraud score 70 with its two triggered signals,
payout 4200 calculated for reference. -/
def evalM6 : Evaluation :=
  { revenueDropPercent := some 95
    lostDays := 5
    baselineDaily := some 1200
    coveredReason := CoveredReason.TEMP_SUSPEND
    strikes := 0
    doubleDipCheck := false
    aiAnalysis :=
      { isValid := some false, confidenceScore := some 90, fraudScore := 70,
        reasons := ["revenueSpike:20", "newChannel:10"] }
    manualReviewIsValid := none
    payoutAmount := some 4200
    verifiedEarningsLoss := some 4200
    repayAmount := 0
    reinstated := false }

/-- The scenario M claim as persisted after verifyClaim: history Submitted
then Manual Review. -/
def cM6 : Claim :=
  { id := 1
    claimDetails :=
      { userId := 7, incidentType := IncidentType.FullSuspension,
        incidentDate := tM, appealStatus := AppealStatus.NotStarted }
    evaluation := evalM6
    statusHistory :=
      [{ status := Status.Submitted, notes := "", inAppMessage := "" },
       { status := Status.ManualReview, notes := "",
         inAppMessage := "Big drop detected. Verifying in 24h." }] }

/-- Scenario L user: six videos published at the same instant (mass-upload
signal), payout identity differing from the registered name. -/
def uL : User :=
  { fullName := "Alice Wanjiku", mobileNumber := "+254700000001",
    videos := [⟨99 * 86400000⟩, ⟨99 * 86400000⟩, ⟨99 * 86400000⟩,
               ⟨99 * 86400000⟩, ⟨99 * 86400000⟩, ⟨99 * 86400000⟩],
    fraudScore := 80, claimHistory := [] }

/-- Scenario L claim: same incident as scenario M but with a rejected
appeal. -/
def cL : Claim := newClaim 2 7 IncidentType.FullSuspension tM AppealStatus.Rejected

/-- Scenario H analytics: a flat 1000-per-day baseline week and five
post-incident days at 60 (no pre-incident spike). -/
def aH : Analytics :=
  { earningsHistory :=
      [⟨93 * 86400000, 1000⟩, ⟨94 * 86400000, 1000⟩, ⟨95 * 86400000, 1000⟩,
       ⟨96 * 86400000, 1000⟩, ⟨97 * 86400000, 1000⟩, ⟨98 * 86400000, 1000⟩,
       ⟨99 * 86400000, 1000⟩,
       ⟨100 * 86400000, 60⟩, ⟨101 * 86400000, 60⟩, ⟨102 * 86400000, 60⟩,
       ⟨103 * 86400000, 60⟩, ⟨104 * 86400000, 60⟩]
    avgDailyRevenue90d := 0 }

/-- Scenario H: an earlier claim of the same user for the very same incident
date that reached Approved and Paid. -/
def cPrior : Claim :=
  { newClaim 90 7 IncidentType.FullSuspension tM AppealStatus.NotStarted with
      statusHistory :=
        [{ status := Status.Submitted, notes := "", inAppMessage := "" },
         { status := Status.Approved, notes := "", inAppMessage := "" },
         { status := Status.Paid, notes := "", inAppMessage := "" }] }

/-- Scenario H: the current claim, identical incident date and user. -/
def cH : Claim := newClaim 91 7 IncidentType.FullSuspension tM AppealStatus.NotStarted

/-- Scenario H evaluation state after autoPullData: baseline 1000, drop 94
percent, five qualifying lost days. -/
def evalH1 : Evaluation :=
  { defaultEvaluation with
      revenueDropPercent := some 94
      baselineDaily := some 1000
      lostDays := 5 }

/-- The user whose paid claim gets reinstated in the C5 scenario. -/
def uFive : User :=
  { fullName := "Brian Otieno", mobileNumber := "Brian Otieno",
    videos := [], fraudScore := 80, claimHistory := [] }

/-- A paid claim with payout 3500, not yet reinstated. -/
def cFivePaid : Claim :=
  { newClaim 50 23 IncidentType.FullSuspension 0 AppealStatus.NotStarted with
      evaluation := { defaultEvaluation with payoutAmount := some 3500 }
      statusHistory :=
        [{ status := Status.Submitted, notes := "", inAppMessage := "" },
         { status := Status.Approved, notes := "", inAppMessage := "" },
         { status := Status.Paid, notes := "", inAppMessage := "" }] }

/-- The C8 claim: classified covered reason COPYRIGHT while the reported
incident type is Video demonetization - per the spec the mismatch penalty
must NOT fire here. -/
def cEight : Claim :=
  { newClaim 80 31 IncidentType.VideoDemonetization 0 AppealStatus.NotStarted with
      evaluation := { defaultEvaluation with coveredReason := CoveredReason.COPYRIGHT } }

/-- The C6 analytics record: a flat pre-incident week and no post-incident
entries at all, so no day qualifies as a lost day. -/
def aSix : Analytics :=
  { earningsHistory :=
      [⟨93 * 86400000, 1000⟩, ⟨94 * 86400000, 1000⟩, ⟨95 * 86400000, 1000⟩,
       ⟨96 * 86400000, 1000⟩, ⟨97 * 86400000, 1000⟩, ⟨98 * 86400000, 1000⟩,
       ⟨99 * 86400000, 1000⟩]
    avgDailyRevenue90d := 0 }

/-- The C6 claim. -/
def cSix : Claim := newClaim 60 41 IncidentType.FullSuspension tM AppealStatus.NotStarted

/-- An analytics record that exists but holds no revenue history. -/
def emptyAnalytics : Analytics := { earningsHistory := [], avgDailyRevenue90d := 0 }

/-- The C7 claim. -/
def cSeven : Claim := newClaim 70 43 IncidentType.FullSuspension 0 AppealStatus.NotStarted

lemma clamp_bounds (x lo hi : ℚ) (h : lo ≤ hi) :
    lo ≤ max (min x hi) lo ∧ max (min x hi) lo ≤ hi :=
  ⟨le_max_right _ _, max_le (min_le_right _ _) h⟩

lemma checkContentReviewDiscount_inRange (u : PremiumUser) (p : PremiumDetails) :
    premiumInRange (checkContentReviewDiscount u p) := by
  unfold checkContentReviewDiscount premiumInRange
  refine ⟨?_, ?_, ?_, ?_⟩ <;>
    first
      | exact (clamp_bounds _ _ _ (by norm_num)).1
      | exact (clamp_bounds _ _ _ (by norm_num)).2

set_option maxHeartbeats 1600000 in
lemma autoPull_M :
    autoPullData (some aM) cM =
      Except.ok ({ cM with evaluation := evalM1 },
        { drop := 95, lostDays := 5, baselineAvg := 1200 }) := by
  unfold autoPullData
  norm_num [aM, cM, tM, evalM1, newClaim, defaultEvaluation, lastN, sumAmounts,
    List.filter, max_def]

lemma approve_ne_reject : ¬ (("approve" : String) = "reject") := by decide

set_option maxHeartbeats 1600000 in
lemma verify_M_result :
    (verifyClaim nowM [] (some aM) (some 65000) uM cM).result = Except.ok rM := by
  unfold verifyClaim
  rw [autoPull_M]
  norm_num [rM, cM, tM, nowM, uM, aM, evalM1, newClaim, defaultEvaluation,
    jsLt, jsGe, jsOr, jsGtDouble, enforceCoverage, coveredReasons, typeMap,
    matchesDoubleDipQuery, scanFraud, calculatePayout, processPayout, updateStatus,
    sumAmounts, lastN, MS_PER_DAY, MS_PER_MONTH, User.channelPublishedAt,
    Claim.topIncidentType, approve_ne_reject, List.filter, max_def, min_def]
  decide

set_option maxHeartbeats 1600000 in
lemma verify_M_statuses :
    ((verifyClaim nowM [] (some aM) (some 65000) uM cM).claim.statusHistory.map
      (fun e => e.status)) = [Status.Submitted, Status.ManualReview] := by
  unfold verifyClaim
  rw [autoPull_M]
  norm_num [cM, tM, nowM, uM, aM, evalM1, newClaim, defaultEvaluation,
    jsLt, jsGe, jsOr, jsGtDouble, enforceCoverage, coveredReasons, typeMap,
    matchesDoubleDipQuery, scanFraud, calculatePayout, processPayout, updateStatus,
    sumAmounts, lastN, MS_PER_DAY, MS_PER_MONTH, User.channelPublishedAt,
    Claim.topIncidentType, approve_ne_reject, List.filter, max_def, min_def]
  decide

lemma getLast?_append_singleton {α : Type} (l : List α) (a : α) :
    (l ++ [a]).getLast? = some a := by
  rw [List.getLast?_append_cons]
  rfl

lemma lastStatus_updateStatus (c : Claim) (s : Status) (n m : String) :
    lastStatus (updateStatus c s n m) = some s := by
  unfold lastStatus updateStatus
  rw [getLast?_append_singleton]
  rfl

lemma string_append_claim_subject :
    "Claim " ++ statusText Status.UnderReview ++ " - CCI" = "Claim Under Review - CCI" := by
  decide

/-- C10: when the computed fraud score lands in the manual band (the result
carries a score s with 50 ≤ s ≤ 75), verifyClaim has appended the status
Manual Review to the claim's history but returns the status Under Review, and
submitClaim records that returned Under Review value, not Manual Review, in
the user's claim-history entry and in the confirmation email subject. -/
theorem claim10_manual_band_returns_under_review
    (now : Int) (db : List Claim) (analytics : Option Analytics) (cap : Option ℚ)
    (u : User) (c : Claim) (r : VResult) (s : ℤ)
    (hok : (verifyClaim now db analytics cap u c).result = Except.ok r)
    (hs : r.fraudScore = some s) (h50 : 50 ≤ s) (h75 : s ≤ 75) :
    r.status = Status.UnderReview
    ∧ lastStatus (verifyClaim now db analytics cap u c).claim = some Status.ManualReview
    ∧ ((submitClaimRecord u r).1.claimHistory.getLast? =
        some { status := Status.UnderReview, payoutAmount := 0 })
    ∧ (submitClaimRecord u r).2 = "Claim Under Review - CCI" := by
  set vs := verifyClaim now db analytics cap u c with hvs
  unfold verifyClaim at hvs
  split at hvs
  · -- autoPullData threw: the result is an error, contradicting hok
    rw [hvs] at hok
    simp at hok
  · -- autoPullData succeeded
    dsimp only at hvs
    split at hvs
    · -- qualifying-loss gate rejected: fraudScore is none
      rw [hvs] at hok
      dsimp only at hok
      injection hok with h
      subst h
      simp at hs
    · split at hvs
      · -- coverage rejected: fraudScore is none
        rw [hvs] at hok
        dsimp only at hok
        injection hok with h
        subst h
        simp at hs
      · split at hvs
        · -- duplicate rejected: fraudScore is none
          rw [hvs] at hok
          dsimp only at hok
          injection hok with h
          subst h
          simp at hs
        · split at hvs
          · -- auto-approve branch: score above 75 contradicts s ≤ 75
            rename_i hgt
            rw [hvs] at hok
            dsimp only at hok
            injection hok with h
            subst h
            dsimp only at hs
            injection hs with h2
            omega
          · split at hvs
            · -- manual band: Manual Review appended, Under Review returned
              rw [hvs] at hok
              dsimp only at hok
              injection hok with h
              subst h
              rw [hvs]
              refine ⟨rfl, lastStatus_updateStatus _ _ _ _, ?_, ?_⟩
              · unfold submitClaimRecord jsOr
                dsimp only
                rw [getLast?_append_singleton]
              · exact string_append_claim_subject
            · -- low-score branch throws: the result is an error
              rw [hvs] at hok
              simp at hok

/-- Witness for C10 at scenario M: the hypotheses hold concretely (the result
is ok with fraud score 70) and the conclusions follow by the theorem. -/
theorem claim10_witness :
    ((verifyClaim nowM [] (some aM) (some 65000) uM cM).result = Except.ok rM)
    ∧ (rM.status = Status.UnderReview
      ∧ lastStatus (verifyClaim nowM [] (some aM) (some 65000) uM cM).claim =
          some Status.ManualReview
      ∧ ((submitClaimRecord uM rM).1.claimHistory.getLast? =
          some { status := Status.UnderReview, payoutAmount := 0 })
      ∧ (submitClaimRecord uM rM).2 = "Claim Under Review - CCI") :=
  ⟨verify_M_result,
   claim10_manual_band_returns_under_review nowM [] (some aM) (some 65000) uM cM rM 70
     verify_M_result rfl (by decide) (by decide)⟩

/-- C4: the payout written by calculatePayout is exactly
min(baselineDaily * 0.70 * lostDays, monthlyCap), and with the schema bounds
(nonnegative baseline and lost days, positive cap) it lies between 0 and the
policy's monthly cap. -/
theorem claim4_payout_formula_and_cap (c : Claim) (b capv : ℚ)
    (hb : c.evaluation.baselineDaily = some b) (hb0 : 0 ≤ b)
    (hd0 : 0 ≤ c.evaluation.lostDays) (hcap : 0 < capv) :
    (calculatePayout (some capv) c).2 = min (b * (7/10) * c.evaluation.lostDays) capv
    ∧ (calculatePayout (some capv) c).1.evaluation.payoutAmount =
        some (min (b * (7/10) * c.evaluation.lostDays) capv)
    ∧ 0 ≤ (calculatePayout (some capv) c).2
    ∧ (calculatePayout (some capv) c).2 ≤ capv := by
  have hB : jsOr c.evaluation.baselineDaily 0 = b := by
    rw [hb]
    unfold jsOr
    dsimp only
    split_ifs with h0
    · exact h0.symm
    · rfl
  have hC : jsOr (some capv) 65000 = capv := by
    unfold jsOr
    dsimp only
    split_ifs with h0
    · exact absurd h0 (ne_of_gt hcap)
    · rfl
  unfold calculatePayout
  rw [hB, hC]
  refine ⟨rfl, rfl, le_min (by positivity) hcap.le, min_le_right _ _⟩

/-- Witness for C4 at a concrete claim: every hypothesis holds and the payout
equals min(1000 * 0.70 * 5, 65000) = 3500, within the cap. -/
theorem claim4_witness :
    (cFour.evaluation.baselineDaily = some 1000 ∧ 0 ≤ cFour.evaluation.lostDays
      ∧ (0:ℚ) < 65000)
    ∧ ((calculatePayout (some 65000) cFour).2 =
        min ((1000:ℚ) * (7/10) * cFour.evaluation.lostDays) 65000
      ∧ (calculatePayout (some 65000) cFour).1.evaluation.payoutAmount =
          some (min ((1000:ℚ) * (7/10) * cFour.evaluation.lostDays) 65000)
      ∧ 0 ≤ (calculatePayout (some 65000) cFour).2
      ∧ (calculatePayout (some 65000) cFour).2 ≤ 65000) :=
  ⟨⟨rfl, by decide, by decide⟩,
   claim4_payout_formula_and_cap cFour 1000 65000 rfl (by decide) (by decide) (by decide)⟩

set_option maxHeartbeats 1600000 in
lemma verify_M_full :
    verifyClaim nowM [] (some aM) (some 65000) uM cM =
      { claim := cM6, user := uM, result := Except.ok rM } := by
  unfold verifyClaim
  rw [autoPull_M]
  norm_num [rM, cM, cM6, evalM6, tM, nowM, uM, aM, evalM1, newClaim, defaultEvaluation,
    jsLt, jsGe, jsOr, jsGtDouble, enforceCoverage, coveredReasons, typeMap,
    matchesDoubleDipQuery, scanFraud, calculatePayout, processPayout, updateStatus,
    sumAmounts, lastN, MS_PER_DAY, MS_PER_MONTH, User.channelPublishedAt,
    Claim.topIncidentType, approve_ne_reject, List.filter, max_def, min_def]
  decide

/-- C3: a bulk review that approves a Manual Review claim appends Paid (via
processPayout) before Approved, so the resulting history records a Paid entry
with no earlier Approved entry. -/
theorem claim3_bulk_review_paid_before_approved :
    ((bulkReviewStep (some 65000) true "Looks legitimate"
        (verifyClaim nowM [] (some aM) (some 65000) uM cM).user
        (verifyClaim nowM [] (some aM) (some 65000) uM cM).claim).map
      (fun x => x.1.statusHistory.map (fun e => e.status)))
      = Except.ok [Status.Submitted, Status.ManualReview, Status.Paid, Status.Approved]
    ∧ ((bulkReviewStep (some 65000) true "Looks legitimate"
        (verifyClaim nowM [] (some aM) (some 65000) uM cM).user
        (verifyClaim nowM [] (some aM) (some 65000) uM cM).claim).map
      (fun x => ((x.1.statusHistory.map (fun e => e.status)).take 3).contains Status.Approved))
      = Except.ok false := by
  rw [verify_M_full]
  norm_num [bulkReviewStep, cM6, evalM6, lastStatus, calculatePayout, processPayout,
    updateStatus, jsOr, min_def, Except.map]
  decide

set_option maxHeartbeats 1600000 in
lemma autoPull_L :
    autoPullData (some aM) cL =
      Except.ok ({ cL with evaluation := evalM1 },
        { drop := 95, lostDays := 5, baselineAvg := 1200 }) := by
  unfold autoPullData
  norm_num [aM, cL, tM, evalM1, newClaim, defaultEvaluation, lastN, sumAmounts,
    List.filter, max_def]

/-- C2: on a claim whose fraud score is 40 (below 50), verifyClaim appends
the Rejected entry with the high-fraud-risk reason, but then throws a
ReferenceError (the identifier user is unbound in the method), so the
user's fraud standing is never decremented: the user document is returned
unchanged and the caller sees an exception, not the Rejected result. -/
theorem claim2_low_score_reference_error :
    (verifyClaim nowM [] (some aM) (some 65000) uL cL).result =
      Except.error "ReferenceError: user is not defined"
    ∧ ((verifyClaim nowM [] (some aM) (some 65000) uL cL).claim.statusHistory.map
        (fun e => e.status)) = [Status.Submitted, Status.Rejected]
    ∧ (((verifyClaim nowM [] (some aM) (some 65000) uL cL).claim.statusHistory.getLast?).map
        (fun e => e.notes)) = some "Not covered: High fraud risk detected."
    ∧ (verifyClaim nowM [] (some aM) (some 65000) uL cL).user = uL
    ∧ (verifyClaim nowM [] (some aM) (some 65000) uL cL).user.fraudScore = 80 := by
  unfold verifyClaim
  rw [autoPull_L]
  norm_num [cL, tM, nowM, uL, aM, evalM1, newClaim, defaultEvaluation,
    jsLt, jsGe, jsOr, jsGtDouble, enforceCoverage, coveredReasons, typeMap,
    matchesDoubleDipQuery, scanFraud, calculatePayout, processPayout, updateStatus,
    sumAmounts, lastN, MS_PER_DAY, MS_PER_MONTH, User.channelPublishedAt,
    Claim.topIncidentType, approve_ne_reject, List.filter, max_def, min_def]
  decide

set_option maxHeartbeats 1600000 in
lemma autoPull_H :
    autoPullData (some aH) cH =
      Except.ok ({ cH with evaluation := evalH1 },
        { drop := 94, lostDays := 5, baselineAvg := 1000 }) := by
  unfold autoPullData
  norm_num [aH, cH, tM, evalH1, newClaim, defaultEvaluation, lastN, sumAmounts,
    List.filter, max_def]

/-- C1: with a same-user prior claim for the identical incident date that
reached Approved and Paid sitting in the database (and that date inside the
trailing 30-day window), verifyClaim still flags no duplicate: the query
addresses a top-level incidentDate path that no claim document has, so it
matches nothing, doubleDipCheck stays false, and the claim sails through to
auto-approval and payment instead of the unconditional duplicate
rejection. -/
theorem claim1_duplicate_guard_matches_nothing :
    cPrior.claimDetails.userId = cH.claimDetails.userId
    ∧ (cPrior.claimDetails.incidentDate - cH.claimDetails.incidentDate).natAbs < 86400000
    ∧ nowM - 30 * MS_PER_DAY ≤ cPrior.claimDetails.incidentDate
    ∧ (cPrior.statusHistory.any
        (fun h => decide (h.status = Status.Approved) || decide (h.status = Status.Paid))) = true
    ∧ (verifyClaim nowM [cPrior] (some aH) (some 65000) uM cH).claim.evaluation.doubleDipCheck
        = false
    ∧ (verifyClaim nowM [cPrior] (some aH) (some 65000) uM cH).result =
        Except.ok { status := Status.Paid, reason := none, payout := some 3500,
                    fraudScore := some 90, needsManual := none } := by
  refine ⟨by decide, by decide, by decide, by decide, ?_, ?_⟩ <;>
    · unfold verifyClaim
      rw [autoPull_H]
      norm_num [cH, cPrior, tM, nowM, uM, aH, evalH1, newClaim, defaultEvaluation,
        jsLt, jsGe, jsOr, jsGtDouble, enforceCoverage, coveredReasons, typeMap,
        matchesDoubleDipQuery, mongoGte, Claim.topIncidentDate, scanFraud,
        calculatePayout, processPayout, updateStatus,
        sumAmounts, lastN, MS_PER_DAY, MS_PER_MONTH, User.channelPublishedAt,
        Claim.topIncidentType, approve_ne_reject, List.filter, max_def, min_def]
      decide

/-- C5: the first reinstatement behaves as specified (repay 1750 = 50
percent, Reinstated appended, standing dropped to 70), but a second direct
call on the already reinstated claim succeeds again - appending a second
Reinstated entry and cutting the standing again - instead of failing with
the already-handled error; the controller route merely masks this with a
different error (last status is no longer Paid). -/
theorem claim5_reinstatement_repeatable :
    ∃ c1 u1 rp1 c2 u2 rp2,
      handleReinstatement uFive cFivePaid = Except.ok (c1, u1, rp1)
      ∧ rp1 = 1750
      ∧ c1.evaluation.reinstated = true
      ∧ c1.evaluation.repayAmount = 1750
      ∧ lastStatus c1 = some Status.Reinstated
      ∧ u1.fraudScore = 70
      ∧ reinstateClaim u1 c1 = Except.error "Claim must be paid before reinstatement"
      ∧ handleReinstatement u1 c1 = Except.ok (c2, u2, rp2)
      ∧ c2.statusHistory.map (fun e => e.status) =
          [Status.Submitted, Status.Approved, Status.Paid,
           Status.Reinstated, Status.Reinstated]
      ∧ u2.fraudScore = 60 := by
  refine ⟨_, _, _, _, _, _, rfl,
    by norm_num [updateStatus, cFivePaid, newClaim, defaultEvaluation],
    rfl, by norm_num [updateStatus, cFivePaid, newClaim, defaultEvaluation],
    lastStatus_updateStatus _ _ _ _, by norm_num [uFive, max_def], ?_, rfl, by decide,
    by norm_num [uFive, max_def]⟩
  unfold reinstateClaim
  rw [lastStatus_updateStatus]
  rfl

/-- C8: on a COPYRIGHT-classified claim whose reported incident type IS Video
demonetization, scanFraud still applies the 25-point reason-mismatch penalty
(it reads a top-level incidentType path that is always undefined, so the
not-demonetization test always passes): the score is 65 = 100 - 25 - 10 and
copyrightMismatch:25 is recorded among the reasons, where the spec requires
no mismatch penalty here. -/
theorem claim8_reason_mismatch_fires_on_demonetization :
    cEight.claimDetails.incidentType = IncidentType.VideoDemonetization
    ∧ cEight.evaluation.coveredReason = CoveredReason.COPYRIGHT
    ∧ (scanFraud 0 uM none cEight).2 = 65
    ∧ (scanFraud 0 uM none cEight).1.evaluation.aiAnalysis.reasons =
        ["copyrightMismatch:25", "newChannel:10"]
    ∧ (scanFraud 0 uM none cEight).1.evaluation.aiAnalysis.fraudScore = 65 := by
  refine ⟨rfl, rfl, ?_, ?_, ?_⟩ <;>
    · norm_num [scanFraud, cEight, uM, newClaim, defaultEvaluation, sumAmounts, lastN,
        jsGtDouble, MS_PER_DAY, MS_PER_MONTH, User.channelPublishedAt,
        Claim.topIncidentType, List.filter, max_def, min_def]
      try decide

/-- C6 counterexample: with zero qualifying post-incident entries the stored
qualifying-lost-day count is 3, not 0 - the floor applies unconditionally. -/
theorem claim6_counterexample :
    ((autoPullData (some aSix) cSix).map (fun p => (p.1.evaluation.lostDays, p.2.lostDays)))
      = Except.ok ((3 : ℚ), (0 : Nat)) := by
  unfold autoPullData
  norm_num [aSix, cSix, tM, newClaim, defaultEvaluation, lastN, sumAmounts, List.filter,
    max_def, Except.map]

/-- C6 amended: the stored qualifying-lost-day count always equals
max(3, raw count) - the floor of 3 applies unconditionally, even when the raw
count of post-incident days below 30 percent of baseline is 0. -/
theorem claim6_lost_days_floor_unconditional :
    ∀ (a : Analytics) (c : Claim), ∃ c' r,
      autoPullData (some a) c = Except.ok (c', r)
      ∧ c'.evaluation.lostDays = max 3 (r.lostDays : ℚ) :=
  fun _ _ => ⟨_, _, rfl, rfl⟩

/-- C7 counterexample: for a user with no analytics record, evaluation does
raise an error - autoPullData throws No analytics data and verifyClaim
propagates it - rather than producing a zero baseline. -/
theorem claim7_counterexample :
    autoPullData none cSeven = Except.error "No analytics data"
    ∧ (verifyClaim 0 [] none none uM cSeven).result = Except.error "No analytics data" :=
  ⟨rfl, rfl⟩

/-- C7 amended: when the analytics record is missing entirely, evaluation
throws No analytics data (propagated by verifyClaim); only when a record
exists but holds no history does the zero(-fallback) baseline arise, in which
case the claim is rejected by the qualifying-loss check rather than
crashing. -/
theorem claim7_missing_analytics_throws :
    ∀ (c : Claim) (now : Int) (db : List Claim) (cap : Option ℚ) (u : User),
      autoPullData none c = Except.error "No analytics data"
      ∧ (verifyClaim now db none cap u c).result = Except.error "No analytics data"
      ∧ (verifyClaim now db (some emptyAnalytics) cap u c).result =
          Except.ok { status := Status.Rejected,
                      reason := some "Not covered: No qualifying income loss (≥70% for 3+ days).",
                      payout := none, fraudScore := none, needsManual := none } :=
  fun _ _ _ _ _ => ⟨rfl, rfl, rfl⟩

lemma recalculatePremium_inRange (u : PremiumUser) (p : PremiumDetails) :
    premiumInRange (recalculatePremium u p) := by
  have h := checkContentReviewDiscount_inRange u p
  unfold recalculatePremium premiumInRange
  exact ⟨h.1, h.2.1, (clamp_bounds _ _ _ (by norm_num)).1,
    (clamp_bounds _ _ _ (by norm_num)).2⟩

lemma adjustPremium_inRange (adj : ℚ) (u : PremiumUser) (p : PremiumDetails) :
    premiumInRange (adjustPremium adj u p) := by
  unfold adjustPremium premiumInRange
  exact ⟨(clamp_bounds _ _ _ (by norm_num)).1, (clamp_bounds _ _ _ (by norm_num)).2,
    (clamp_bounds _ _ _ (by norm_num)).1, (clamp_bounds _ _ _ (by norm_num)).2⟩

lemma estimatePremiumNew_inRange (u : PremiumUser) :
    premiumInRange (estimatePremiumNew u) := by
  unfold estimatePremiumNew premiumInRange
  exact ⟨by norm_num, by norm_num, (clamp_bounds _ _ _ (by norm_num)).1,
    (clamp_bounds _ _ _ (by norm_num)).2⟩

/-- C9: after the discount check, a recalculation, a manual adjustment, or
the creation-time calculation, the stored final percentage lies in the range
2 to 5 and the stored final amount in 1000 to 5000, whatever the raw computed
values were. -/
theorem claim9_premium_bounds :
    ∀ (u : PremiumUser) (p : PremiumDetails) (adj : ℚ),
      premiumInRange (checkContentReviewDiscount u p)
      ∧ premiumInRange (recalculatePremium u p)
      ∧ premiumInRange (adjustPremium adj u p)
      ∧ premiumInRange (estimatePremiumNew u) :=
  fun u p adj =>
    ⟨checkContentReviewDiscount_inRange u p, recalculatePremium_inRange u p,
     adjustPremium_inRange adj u p, estimatePremiumNew_inRange u⟩

end ContentClaims
